import Mathlib

/-!
Verification of the URDF-to-scene-graph conversion shim
(`src/plugin/utils.h` of pybullet_rendering).

Shallow embedding conventions:
* C++ `double`/`btScalar` values and their `float(...)` narrowings are
  modelled as rationals (`ℚ`); the narrowing itself is the identity in the
  model, since no claim depends on rounding.
* `btTransform` values reaching `makeShape` are opaque external objects;
  the only operations the shim performs on them are inversion,
  composition, and composition with a quaternion built from an axis and
  the angle `btAsin(axis.length())`.  We embed them as a symbolic term
  algebra (`BtTransform`), so "which transform was composed" is exact.
* `makeVisualShapeData` reads a transform only through `getOrigin` /
  `getRotation`; for it the transform is a concrete origin + quaternion
  record (`BtTransformC`).
* The scene graph's `registerTexture` is an external call that mutates
  shared state; `makeShape` is embedded with an oracle `register`
  function giving the id the graph would return, and it additionally
  returns the trace of registration calls it performed.
* `std::strncpy` into the fixed `char[VISUAL_SHAPE_MAX_PATH_LEN]` field is
  modelled exactly: it writes exactly `n` bytes, copying from the source
  C-string up to its terminator and padding the remainder with NUL bytes.
-/

namespace PbRender

/-- 3-component vector (`btVector3`), components as rationals. -/
structure V3 where
  x : ℚ
  y : ℚ
  z : ℚ
deriving DecidableEq, Repr

/-- 4-component vector (`btVector4`, used for RGBA colors). -/
structure V4 where
  x : ℚ
  y : ℚ
  z : ℚ
  w : ℚ
deriving DecidableEq, Repr

/-- Dot product of two `btVector3`. -/
def V3.dot (a b : V3) : ℚ := a.x * b.x + a.y * b.y + a.z * b.z

/-- Cross product of two `btVector3`. -/
def V3.cross (a b : V3) : V3 :=
  ⟨a.y * b.z - a.z * b.y, a.z * b.x - a.x * b.z, a.x * b.y - a.y * b.x⟩

/-- Squared Euclidean length of a `btVector3` (`length()` squared; the
square root itself is irrational in general and never needed exactly). -/
def V3.lengthSq (a : V3) : ℚ := a.x * a.x + a.y * a.y + a.z * a.z

/-- Symbolic length expression: `axis.length()` as passed to `btAsin`. -/
structure LenE where
  ofVec : V3
deriving DecidableEq, Repr

/-- Symbolic angle expression: `btAsin(len)` as passed to `btQuaternion`. -/
structure AngleE where
  asinOf : LenE
deriving DecidableEq, Repr

/-- Symbolic quaternion built by `btQuaternion(axis, angle)`. -/
structure BtQuatE where
  axis : V3
  angle : AngleE
deriving DecidableEq, Repr

/-- Symbolic `btTransform` term algebra: opaque input transforms (`atom`),
`inverse()`, `operator*`, and `btTransform(btQuaternion)`. -/
inductive BtTransform where
  | atom (id : Nat)
  | inv (t : BtTransform)
  | mul (a b : BtTransform)
  | ofQuat (q : BtQuatE)
deriving DecidableEq, Repr

/-- Concrete transform view used by `makeVisualShapeData`, which only calls
`getOrigin()` and `getRotation()`: origin plus rotation quaternion
components `(x, y, z, w)`. -/
structure BtTransformC where
  originX : ℚ
  originY : ℚ
  originZ : ℚ
  rotX : ℚ
  rotY : ℚ
  rotZ : ℚ
  rotW : ℚ
deriving DecidableEq, Repr

/-- Geometry type tags of Bullet's `UrdfGeomTypes` enum
(`Importers/ImportURDFDemo/UrdfParser.h`). -/
inductive UrdfGeomTypes where
  | URDF_GEOM_SPHERE
  | URDF_GEOM_BOX
  | URDF_GEOM_CYLINDER
  | URDF_GEOM_MESH
  | URDF_GEOM_PLANE
  | URDF_GEOM_CAPSULE
  | URDF_GEOM_CDF
  | URDF_GEOM_HEIGHTFIELD
  | URDF_GEOM_UNKNOWN
deriving DecidableEq, Repr

open UrdfGeomTypes

/-- `UrdfGeometry::MEMORY_VERTICES` tag of the `m_meshFileType` field
(an `int` in Bullet's header; the exact value only matters up to equality
with this constant). -/
def MEMORY_VERTICES : Int := 5

/-- The fields of Bullet's `UrdfGeometry` record read by the shim. -/
structure UrdfGeometry where
  m_type : UrdfGeomTypes
  m_boxSize : V3
  m_sphereRadius : ℚ
  m_capsuleRadius : ℚ
  m_capsuleHeight : ℚ
  m_planeNormal : V3
  m_meshFileType : Int
  m_meshFileName : String
  m_meshScale : V3
  m_vertices : List V3
  m_uvs : List V3
  m_normals : List V3
  m_indices : List Int
deriving DecidableEq, Repr

/-- The fields of Bullet's `UrdfShape` read by the shim. -/
structure UrdfShape where
  m_linkLocalFrame : BtTransform
  m_geometry : UrdfGeometry
deriving DecidableEq, Repr

/-- Diffuse/specular color pair (`UrdfMaterialColor`). -/
structure UrdfMaterialColor where
  m_rgbaColor : V4
  m_specularColor : V3
deriving DecidableEq, Repr

/-- The fields of Bullet's `UrdfMaterial` read by the shim. -/
structure UrdfMaterial where
  m_matColor : UrdfMaterialColor
  m_textureFilename : String
deriving DecidableEq, Repr

/-- `URDF_USE_MATERIAL_COLORS_FROM_MTL` bit of Bullet's URDF flag enum
(`SharedMemory/SharedMemoryPublic.h`); a single bit, tested with `&`. -/
def URDF_USE_MATERIAL_COLORS_FROM_MTL : Int := 32768

end PbRender

namespace PbRender.scene

/-- Modelled from the spec: the scene-graph subsystem's RGBA color
(`Color4f` of `scene/SceneGraph.h`, not under `src/`). -/
structure Color4f where
  r : ℚ
  g : ℚ
  b : ℚ
  a : ℚ
deriving DecidableEq, Repr

/-- Modelled from the spec: the scene-graph subsystem's RGB color
(`Color3f` of `scene/SceneGraph.h`, not under `src/`). -/
structure Color3f where
  r : ℚ
  g : ℚ
  b : ℚ
deriving DecidableEq, Repr

/-- Modelled from the spec: scene-graph `Material` — diffuse RGBA,
specular RGB, and a texture-id reference with `-1` meaning no texture. -/
structure Material where
  diffuse : Color4f
  specular : Color3f
  textureId : Int
deriving DecidableEq, Repr

/-- Modelled from the spec: scene-graph `Texture`, identified by its
filename string. -/
structure Texture where
  filename : String
deriving DecidableEq, Repr

/-- Modelled from the spec: scene-graph `MeshData` — flat arrays of vertex
positions, texture coordinates, normals, and triangle indices. -/
structure MeshData where
  vertices : List ℚ
  uvs : List ℚ
  normals : List ℚ
  indices : List Int
deriving DecidableEq, Repr

/-- Modelled from the spec: scene-graph `Mesh` — either in-memory mesh
data or a mesh referenced by filename for external loading. -/
inductive Mesh where
  | ofData (data : MeshData)
  | ofFile (filename : String)
deriving DecidableEq, Repr

/-- Modelled from the spec: the tagged variant set of scene-graph `Shape`,
plus the default tag carried by an empty `Shape{}`. -/
inductive ShapeType where
  | Unknown
  | Cube
  | Sphere
  | Cylinder
  | Capsule
  | Plane
  | Mesh
  | Heightfield
deriving DecidableEq, Repr

/-- Pose produced by `makePose`: in the model the pose keeps the frame it
was extracted from (origin and quaternion are the external decomposition
of that frame; `float(...)` narrowing is the identity here) plus the
scale vector. -/
structure Affine3f where
  frame : BtTransform
  scale : V3
deriving DecidableEq, Repr

/-- Modelled from the spec: scene-graph `Shape` — a variant tag, a pose,
an optional shared `Material` and an optional shared `Mesh`; the
default-constructed `Shape{}` has no pose, material or mesh and the
default tag. -/
structure Shape where
  shapeType : ShapeType
  pose : Option Affine3f
  material : Option Material
  mesh : Option Mesh
deriving DecidableEq, Repr

/-- The empty `Shape{}` returned for unrecognized geometry types. -/
def Shape.default : Shape := ⟨ShapeType.Unknown, none, none, none⟩

/-- The scene graph, seen through the single operation the shim uses:
`registerTexture`, modelled by the pure response function `register`
giving the id the graph returns for a texture (the registry's own state
evolution is external and unobservable within one call). -/
structure SceneGraph where
  register : Texture → Int

end PbRender.scene

namespace PbRender

open scene UrdfGeomTypes

/-- `makePose(frame, scale)`: builds the pose from a transform and a scale
vector (origin/quaternion extraction and `float` narrowing are the
external identity-modelled decomposition of `frame`). -/
def makePose (frame : BtTransform) (scale : V3) : Affine3f :=
  ⟨frame, scale⟩

/-- Flattening loop for vertices/normals: pushes `x`, `y`, `z` of each
`btVector3` in order. -/
def flatten3 : List V3 → List ℚ
  | [] => []
  | v :: rest => v.x :: v.y :: v.z :: flatten3 rest

/-- Flattening loop for uvs: pushes `x`, `y` of each `btVector3` in order. -/
def flatten2 : List V3 → List ℚ
  | [] => []
  | v :: rest => v.x :: v.y :: flatten2 rest

/-- `getMeshData(geometry)`: flattens the vertex/uv/normal/index lists of
a `UrdfGeometry` into contiguous arrays (the `reserve` calls only
preallocate and have no observable effect on the result). -/
def getMeshData (geometry : UrdfGeometry) : MeshData :=
  { vertices := flatten3 geometry.m_vertices
    uvs := flatten2 geometry.m_uvs
    normals := flatten3 geometry.m_normals
    indices := geometry.m_indices }

/-- `makeShape(urdfShape, urdfMaterial, localInertiaFrame, flags, graph)`.
Returns the produced `Shape` together with the trace of
`graph.registerTexture` calls performed (in order). -/
def makeShape (urdfShape : UrdfShape) (urdfMaterial : UrdfMaterial)
    (localInertiaFrame : BtTransform) (flags : Int) (graph : SceneGraph) :
    Shape × List Texture :=
  let frame := BtTransform.mul (BtTransform.inv localInertiaFrame)
                 urdfShape.m_linkLocalFrame
  let fname := urdfMaterial.m_textureFilename
  let calls : List Texture := if fname = "" then [] else [⟨fname⟩]
  let textureId : Int := if fname = "" then -1 else graph.register ⟨fname⟩
  let d := urdfMaterial.m_matColor.m_rgbaColor
  let s := urdfMaterial.m_matColor.m_specularColor
  let material : Material := ⟨⟨d.x, d.y, d.z, d.w⟩, ⟨s.x, s.y, s.z⟩, textureId⟩
  let geometry := urdfShape.m_geometry
  if URDF_GEOM_BOX = geometry.m_type then
    let pose := makePose frame geometry.m_boxSize
    (⟨ShapeType.Cube, some pose, some material, none⟩, calls)
  else if URDF_GEOM_SPHERE = geometry.m_type then
    let r := geometry.m_sphereRadius
    let pose := makePose frame ⟨r, r, r⟩
    (⟨ShapeType.Sphere, some pose, some material, none⟩, calls)
  else if URDF_GEOM_CYLINDER = geometry.m_type then
    let r := geometry.m_capsuleRadius
    let h := geometry.m_capsuleHeight
    let pose := makePose frame ⟨r, r, h⟩
    (⟨ShapeType.Cylinder, some pose, some material, none⟩, calls)
  else if URDF_GEOM_CAPSULE = geometry.m_type then
    let r := geometry.m_capsuleRadius
    let h := geometry.m_capsuleHeight
    let pose := makePose frame ⟨r, r, h⟩
    (⟨ShapeType.Capsule, some pose, some material, none⟩, calls)
  else if URDF_GEOM_PLANE = geometry.m_type then
    let n := geometry.m_planeNormal
    let z : V3 := ⟨0, 0, 1⟩
    let frame' :=
      if n.dot z < (0.99 : ℚ) then
        let axis := n.cross z
        let quat : BtQuatE := ⟨axis, ⟨⟨axis⟩⟩⟩
        BtTransform.mul frame (BtTransform.ofQuat quat)
      else frame
    let pose := makePose frame' ⟨1, 1, 1⟩
    (⟨ShapeType.Plane, some pose, some material, none⟩, calls)
  else if URDF_GEOM_MESH = geometry.m_type then
    let pose := makePose frame geometry.m_meshScale
    let mesh := if geometry.m_meshFileType = MEMORY_VERTICES then
        Mesh.ofData (getMeshData geometry)
      else
        Mesh.ofFile geometry.m_meshFileName
    let material' := if Int.land flags URDF_USE_MATERIAL_COLORS_FROM_MTL ≠ 0 then
        none
      else some material
    (⟨ShapeType.Mesh, some pose, material', some mesh⟩, calls)
  else if URDF_GEOM_HEIGHTFIELD = geometry.m_type then
    let pose := makePose frame ⟨1, 1, 1⟩
    let mesh := Mesh.ofData (getMeshData geometry)
    (⟨ShapeType.Heightfield, some pose, some material, some mesh⟩, calls)
  else
    (Shape.default, calls)

/-- `VISUAL_SHAPE_MAX_PATH_LEN` of Bullet's
`SharedMemory/SharedMemoryPublic.h`: capacity in bytes of the
`m_meshAssetFileName` field. -/
def VISUAL_SHAPE_MAX_PATH_LEN : Nat := 1024

/-- The NUL byte terminating C strings. -/
def nulChar : Char := Char.ofNat 0

/-- `std::strncpy(dst, src, n)` restricted to what the shim observes:
the `n` bytes written into `dst`.  It copies bytes of `src` up to its
NUL terminator but at most `n`, then pads with NUL bytes to exactly `n`
bytes; if the C-string content of `src` has length at least `n`, no NUL
byte is written. -/
def strncpy (src : List Char) (n : Nat) : List Char :=
  let content := src.takeWhile (fun c => c ≠ nulChar)
  content.take n ++ List.replicate (n - content.length) nulChar

/-- The fields of `b3VisualShapeData`
(`SharedMemory/SharedMemoryPublic.h`) written by the shim;
`m_meshAssetFileName` is the byte content of the fixed
`char[VISUAL_SHAPE_MAX_PATH_LEN]` field. -/
structure b3VisualShapeData where
  m_objectUniqueId : Int
  m_linkIndex : Int
  m_localVisualFrame : List ℚ
  m_visualGeometryType : UrdfGeomTypes
  m_dimensions : List ℚ
  m_rgbaColor : List ℚ
  m_meshAssetFileName : List Char
  m_textureUniqueId : Int
  m_openglTextureId : Int
  m_tinyRendererTextureId : Int
deriving DecidableEq, Repr

/-- `makeVisualShapeData(urdfShape, urdfMaterial, localInertiaFrame,
bodyUniqueId, linkIndex)`: fills the IPC visual-shape struct. -/
def makeVisualShapeData (urdfShape : UrdfShape) (urdfMaterial : UrdfMaterial)
    (localInertiaFrame : BtTransformC) (bodyUniqueId : Int) (linkIndex : Int) :
    b3VisualShapeData :=
  { m_objectUniqueId := bodyUniqueId
    m_linkIndex := linkIndex
    m_localVisualFrame :=
      [localInertiaFrame.originX, localInertiaFrame.originY,
       localInertiaFrame.originZ, localInertiaFrame.rotX,
       localInertiaFrame.rotY, localInertiaFrame.rotZ,
       localInertiaFrame.rotW]
    m_visualGeometryType := urdfShape.m_geometry.m_type
    m_dimensions :=
      [urdfShape.m_geometry.m_meshScale.x,
       urdfShape.m_geometry.m_meshScale.x,
       urdfShape.m_geometry.m_meshScale.x]
    m_rgbaColor :=
      [urdfMaterial.m_matColor.m_rgbaColor.x,
       urdfMaterial.m_matColor.m_rgbaColor.y,
       urdfMaterial.m_matColor.m_rgbaColor.z,
       urdfMaterial.m_matColor.m_rgbaColor.w]
    m_meshAssetFileName :=
      strncpy urdfMaterial.m_textureFilename.data VISUAL_SHAPE_MAX_PATH_LEN
    m_textureUniqueId := -1
    m_openglTextureId := -1
    m_tinyRendererTextureId := -1 }

/-! ### Sample inputs used by witnesses -/

/-- A sample geometry record with the given type tag. -/
def sampleGeom (t : UrdfGeomTypes) : UrdfGeometry :=
  ⟨t, ⟨1, 2, 3⟩, 2, 1, 4, ⟨0, 0, 1⟩, 0, ⟨['m']⟩, ⟨5, 6, 7⟩,
   [⟨1, 2, 3⟩, ⟨4, 5, 6⟩], [⟨7, 8, 0⟩], [⟨0, 0, 1⟩], [0, 1, 2]⟩

/-- A sample URDF shape with the given geometry type tag. -/
def sampleUrdfShape (t : UrdfGeomTypes) : UrdfShape :=
  ⟨BtTransform.atom 0, sampleGeom t⟩

/-- A sample material with a non-empty texture filename. -/
def sampleMat : UrdfMaterial := ⟨⟨⟨1, 0, 0, 1⟩, ⟨0, 1, 0⟩⟩, ⟨['t', 'x']⟩⟩

/-- A sample material with an empty texture filename. -/
def sampleMatNoTex : UrdfMaterial := ⟨⟨⟨1, 0, 0, 1⟩, ⟨0, 1, 0⟩⟩, ⟨[]⟩⟩

/-- A sample scene graph whose registry answers with the filename length. -/
def sampleGraph : SceneGraph := ⟨fun t => Int.ofNat t.filename.length⟩

/-- A sample concrete transform for the IPC struct filler. -/
def sampleFrameC : BtTransformC := ⟨1, 2, 3, 0, 0, 0, 1⟩

/-! ### Helper lemmas about `makeShape` -/

/-- The trace of `registerTexture` calls `makeShape` performs: none for an
empty texture filename, exactly one otherwise — independent of geometry
type and flags. -/
theorem makeShape_calls_eq (us : UrdfShape) (um : UrdfMaterial)
    (lif : BtTransform) (flags : Int) (graph : SceneGraph) :
    (makeShape us um lif flags graph).2
      = if um.m_textureFilename = "" then []
        else [⟨um.m_textureFilename⟩] := by
  obtain ⟨llf, ⟨t, bs, sr, cr, ch, pn, mft, mfn, ms, vs, uv, nr, idx⟩⟩ := us
  cases t <;> simp [makeShape]

/-- The material slot of the shape `makeShape` produces is either empty or
holds exactly the material built from the URDF material record, whose
texture id is `-1` for an empty filename and the id returned by the
graph's registry otherwise. -/
theorem makeShape_material_eq (us : UrdfShape) (um : UrdfMaterial)
    (lif : BtTransform) (flags : Int) (graph : SceneGraph) :
    (makeShape us um lif flags graph).1.material = none
  ∨ (makeShape us um lif flags graph).1.material
      = some ⟨⟨um.m_matColor.m_rgbaColor.x, um.m_matColor.m_rgbaColor.y,
               um.m_matColor.m_rgbaColor.z, um.m_matColor.m_rgbaColor.w⟩,
              ⟨um.m_matColor.m_specularColor.x, um.m_matColor.m_specularColor.y,
               um.m_matColor.m_specularColor.z⟩,
              if um.m_textureFilename = "" then -1
              else graph.register ⟨um.m_textureFilename⟩⟩ := by
  obtain ⟨llf, ⟨t, bs, sr, cr, ch, pn, mft, mfn, ms, vs, uv, nr, idx⟩⟩ := us
  cases t <;> simp [makeShape, Shape.default]
  case URDF_GEOM_MESH =>
    by_cases hf : Int.land flags URDF_USE_MATERIAL_COLORS_FROM_MTL = 0 <;>
      simp [hf]

/-- Unsupported geometry tags make `makeShape` return the empty default
shape. -/
theorem makeShape_unsupported_default (us : UrdfShape) (um : UrdfMaterial)
    (lif : BtTransform) (flags : Int) (graph : SceneGraph)
    (h : us.m_geometry.m_type = URDF_GEOM_CDF
       ∨ us.m_geometry.m_type = URDF_GEOM_UNKNOWN) :
    (makeShape us um lif flags graph).1 = Shape.default := by
  obtain ⟨llf, ⟨t, bs, sr, cr, ch, pn, mft, mfn, ms, vs, uv, nr, idx⟩⟩ := us
  rcases h with h | h <;> simp only at h <;> subst h <;> simp [makeShape]

/-- With the material-discard flag set, the Mesh branch resets the
material. -/
theorem makeShape_mesh_flag_material_none (us : UrdfShape) (um : UrdfMaterial)
    (lif : BtTransform) (flags : Int) (graph : SceneGraph)
    (ht : us.m_geometry.m_type = URDF_GEOM_MESH)
    (hf : Int.land flags URDF_USE_MATERIAL_COLORS_FROM_MTL ≠ 0) :
    (makeShape us um lif flags graph).1.material = none := by
  obtain ⟨llf, ⟨t, bs, sr, cr, ch, pn, mft, mfn, ms, vs, uv, nr, idx⟩⟩ := us
  simp only at ht
  subst ht
  simp [makeShape, hf]

/-! ### Helper lemmas about the flattening loops -/

theorem flatten3_length (l : List V3) : (flatten3 l).length = 3 * l.length := by
  induction l with
  | nil => simp [flatten3]
  | cons v rest ih => simp [flatten3, ih]; ring

theorem flatten2_length (l : List V3) : (flatten2 l).length = 2 * l.length := by
  induction l with
  | nil => simp [flatten2]
  | cons v rest ih => simp [flatten2, ih]; ring

theorem flatten3_get? (l : List V3) (i : Nat) :
    (flatten3 l).get? (3 * i) = (l.get? i).map V3.x
  ∧ (flatten3 l).get? (3 * i + 1) = (l.get? i).map V3.y
  ∧ (flatten3 l).get? (3 * i + 2) = (l.get? i).map V3.z := by
  induction l generalizing i with
  | nil => simp [flatten3]
  | cons v rest ih =>
    cases i with
    | zero => simp [flatten3]
    | succ j =>
      have h3 : 3 * (j + 1) = 3 * j + 1 + 1 + 1 := by ring
      rw [h3]
      simpa [flatten3] using ih j

theorem flatten2_get? (l : List V3) (i : Nat) :
    (flatten2 l).get? (2 * i) = (l.get? i).map V3.x
  ∧ (flatten2 l).get? (2 * i + 1) = (l.get? i).map V3.y := by
  induction l generalizing i with
  | nil => simp [flatten2]
  | cons v rest ih =>
    cases i with
    | zero => simp [flatten2]
    | succ j =>
      have h2 : 2 * (j + 1) = 2 * j + 1 + 1 := by ring
      rw [h2]
      simpa [flatten2] using ih j

/-! ### Helper lemmas about `strncpy` -/

theorem strncpy_length (src : List Char) (n : Nat) :
    (strncpy src n).length = n := by
  simp only [strncpy, List.length_append, List.length_take,
    List.length_replicate]
  omega

theorem strncpy_nul_not_mem (src : List Char) (n : Nat)
    (h : n ≤ (src.takeWhile (fun c => c ≠ nulChar)).length) :
    nulChar ∉ strncpy src n := by
  intro hmem
  simp only [strncpy] at hmem
  rw [Nat.sub_eq_zero_of_le h, List.replicate_zero, List.append_nil] at hmem
  have hmem' := List.take_subset n _ hmem
  have := List.mem_takeWhile_imp hmem'
  simp at this

theorem strncpy_nul_mem (src : List Char) (n : Nat)
    (h : (src.takeWhile (fun c => c ≠ nulChar)).length < n) :
    nulChar ∈ strncpy src n := by
  simp only [strncpy]
  refine List.mem_append.mpr (Or.inr ?_)
  exact List.mem_replicate.mpr ⟨by omega, rfl⟩

theorem takeWhile_replicate_of_pos {p : Char → Bool} {a : Char} (n : Nat)
    (h : p a) : (List.replicate n a).takeWhile p = List.replicate n a := by
  induction n with
  | zero => simp
  | succ m ih => simp [List.replicate_succ, List.takeWhile_cons, h, ih]

/-! ### Claim theorems -/

/-- The spec's one-to-one correspondence between URDF geometry tags and
scene-graph shape variant tags; unsupported tags map to the default tag.
This definition follows the spec's words, to be compared against
`makeShape`. -/
def specVariantTag : UrdfGeomTypes → scene.ShapeType
  | URDF_GEOM_BOX => ShapeType.Cube
  | URDF_GEOM_SPHERE => ShapeType.Sphere
  | URDF_GEOM_CYLINDER => ShapeType.Cylinder
  | URDF_GEOM_CAPSULE => ShapeType.Capsule
  | URDF_GEOM_PLANE => ShapeType.Plane
  | URDF_GEOM_MESH => ShapeType.Mesh
  | URDF_GEOM_HEIGHTFIELD => ShapeType.Heightfield
  | URDF_GEOM_CDF => ShapeType.Unknown
  | URDF_GEOM_UNKNOWN => ShapeType.Unknown

/-- C1: for every supported geometry tag the produced shape's variant tag
is the one-to-one image of the input tag (Box→Cube, Sphere→Sphere,
Cylinder→Cylinder, Capsule→Capsule, Plane→Plane, Mesh→Mesh,
Heightfield→Heightfield), and any other tag yields the empty default
shape. -/
theorem makeShape_variant_tag (us : UrdfShape) (um : UrdfMaterial)
    (lif : BtTransform) (flags : Int) (graph : SceneGraph) :
    (makeShape us um lif flags graph).1.shapeType
      = specVariantTag us.m_geometry.m_type
  ∧ (specVariantTag us.m_geometry.m_type = ShapeType.Unknown →
      (makeShape us um lif flags graph).1 = Shape.default) := by
  obtain ⟨llf, ⟨t, bs, sr, cr, ch, pn, mft, mfn, ms, vs, uv, nr, idx⟩⟩ := us
  cases t <;> simp [makeShape, specVariantTag, Shape.default]

/-- Witness for C1: a CDF-tagged input evaluates to the empty default
shape, and a Box-tagged input to the Cube variant. -/
theorem makeShape_variant_tag_witness :
    (makeShape (sampleUrdfShape URDF_GEOM_CDF) sampleMat (BtTransform.atom 1)
        0 sampleGraph).1 = Shape.default
  ∧ (makeShape (sampleUrdfShape URDF_GEOM_BOX) sampleMat (BtTransform.atom 1)
        0 sampleGraph).1.shapeType = ShapeType.Cube :=
  ⟨(makeShape_variant_tag (sampleUrdfShape URDF_GEOM_CDF) sampleMat
      (BtTransform.atom 1) 0 sampleGraph).2 (by decide),
   (makeShape_variant_tag (sampleUrdfShape URDF_GEOM_BOX) sampleMat
      (BtTransform.atom 1) 0 sampleGraph).1⟩

/-- C3: `getMeshData` produces arrays of lengths `3N`, `2M`, `3K`, `L`
and preserves element order: position `3i`/`3i+1`/`3i+2` of the vertex
array holds the x/y/z of input vertex `i`, positions `2i`/`2i+1` of the
uv array hold the x/y of input uv `i`, the normal array is as the vertex
array, and index `i` is copied to index `i`. -/
theorem getMeshData_lengths_and_order (g : UrdfGeometry) :
    ((getMeshData g).vertices.length = 3 * g.m_vertices.length
      ∧ (getMeshData g).uvs.length = 2 * g.m_uvs.length
      ∧ (getMeshData g).normals.length = 3 * g.m_normals.length
      ∧ (getMeshData g).indices.length = g.m_indices.length)
  ∧ ∀ i : Nat,
      ((getMeshData g).vertices.get? (3 * i) = (g.m_vertices.get? i).map V3.x
        ∧ (getMeshData g).vertices.get? (3 * i + 1)
            = (g.m_vertices.get? i).map V3.y
        ∧ (getMeshData g).vertices.get? (3 * i + 2)
            = (g.m_vertices.get? i).map V3.z)
      ∧ ((getMeshData g).uvs.get? (2 * i) = (g.m_uvs.get? i).map V3.x
        ∧ (getMeshData g).uvs.get? (2 * i + 1) = (g.m_uvs.get? i).map V3.y)
      ∧ ((getMeshData g).normals.get? (3 * i) = (g.m_normals.get? i).map V3.x
        ∧ (getMeshData g).normals.get? (3 * i + 1)
            = (g.m_normals.get? i).map V3.y
        ∧ (getMeshData g).normals.get? (3 * i + 2)
            = (g.m_normals.get? i).map V3.z)
      ∧ (getMeshData g).indices.get? i = g.m_indices.get? i :=
  ⟨⟨flatten3_length g.m_vertices, flatten2_length g.m_uvs,
    flatten3_length g.m_normals, rfl⟩,
   fun i => ⟨flatten3_get? g.m_vertices i, flatten2_get? g.m_uvs i,
             flatten3_get? g.m_normals i, rfl⟩⟩

/-- Witness for C3: evaluation on a concrete two-vertex geometry. -/
theorem getMeshData_lengths_and_order_witness :
    (getMeshData (sampleGeom URDF_GEOM_MESH)).vertices.length
      = 3 * (sampleGeom URDF_GEOM_MESH).m_vertices.length
  ∧ (getMeshData (sampleGeom URDF_GEOM_MESH)).vertices.get? (3 * 1)
      = ((sampleGeom URDF_GEOM_MESH).m_vertices.get? 1).map V3.x :=
  ⟨(getMeshData_lengths_and_order (sampleGeom URDF_GEOM_MESH)).1.1,
   ((getMeshData_lengths_and_order (sampleGeom URDF_GEOM_MESH)).2 1).1.1⟩

/-- C4: `makeVisualShapeData` fills all three slots of `m_dimensions`
with the same scalar — the first mesh-scale component — for every input. -/
theorem makeVisualShapeData_dimensions (us : UrdfShape) (um : UrdfMaterial)
    (lifC : BtTransformC) (body link : Int) :
    (makeVisualShapeData us um lifC body link).m_dimensions
      = List.replicate 3 us.m_geometry.m_meshScale.x := rfl

/-- C5: for a Mesh-geometry input with the material-discard flag bit set,
the produced shape's material reference is empty, whatever the input
material. -/
theorem makeShape_mtl_flag_discards_material (us : UrdfShape)
    (um : UrdfMaterial) (lif : BtTransform) (flags : Int) (graph : SceneGraph)
    (ht : us.m_geometry.m_type = URDF_GEOM_MESH)
    (hf : Int.land flags URDF_USE_MATERIAL_COLORS_FROM_MTL ≠ 0) :
    (makeShape us um lif flags graph).1.material = none :=
  makeShape_mesh_flag_material_none us um lif flags graph ht hf

/-- Witness for C5: concrete Mesh input with exactly the flag bit set. -/
theorem makeShape_mtl_flag_discards_material_witness :
    (makeShape (sampleUrdfShape URDF_GEOM_MESH) sampleMat (BtTransform.atom 1)
        URDF_USE_MATERIAL_COLORS_FROM_MTL sampleGraph).1.material = none :=
  makeShape_mtl_flag_discards_material (sampleUrdfShape URDF_GEOM_MESH)
    sampleMat (BtTransform.atom 1) URDF_USE_MATERIAL_COLORS_FROM_MTL
    sampleGraph (by decide) (by decide)

/-- C8: Cylinder and Capsule inputs both get pose scale
`(capsuleRadius, capsuleRadius, capsuleHeight)`, derived from the same
two source fields. -/
theorem makeShape_cylinder_capsule_scale (us : UrdfShape) (um : UrdfMaterial)
    (lif : BtTransform) (flags : Int) (graph : SceneGraph)
    (h : us.m_geometry.m_type = URDF_GEOM_CYLINDER
       ∨ us.m_geometry.m_type = URDF_GEOM_CAPSULE) :
    ((makeShape us um lif flags graph).1.pose).map Affine3f.scale
      = some ⟨us.m_geometry.m_capsuleRadius, us.m_geometry.m_capsuleRadius,
              us.m_geometry.m_capsuleHeight⟩ := by
  obtain ⟨llf, ⟨t, bs, sr, cr, ch, pn, mft, mfn, ms, vs, uv, nr, idx⟩⟩ := us
  rcases h with h | h <;> simp only at h <;> subst h <;>
    simp [makeShape, makePose]

/-- Witness for C8: both tags evaluated on a concrete input with radius 1
and height 4. -/
theorem makeShape_cylinder_capsule_scale_witness :
    ((makeShape (sampleUrdfShape URDF_GEOM_CYLINDER) sampleMat
        (BtTransform.atom 1) 0 sampleGraph).1.pose).map Affine3f.scale
      = some ⟨1, 1, 4⟩
  ∧ ((makeShape (sampleUrdfShape URDF_GEOM_CAPSULE) sampleMat
        (BtTransform.atom 1) 0 sampleGraph).1.pose).map Affine3f.scale
      = some ⟨1, 1, 4⟩ :=
  ⟨makeShape_cylinder_capsule_scale (sampleUrdfShape URDF_GEOM_CYLINDER)
      sampleMat (BtTransform.atom 1) 0 sampleGraph (Or.inl (by decide)),
   makeShape_cylinder_capsule_scale (sampleUrdfShape URDF_GEOM_CAPSULE)
      sampleMat (BtTransform.atom 1) 0 sampleGraph (Or.inr (by decide))⟩

/-- C6: with an empty texture filename `makeShape` performs no
`registerTexture` call and the built material carries the `-1` sentinel;
with a non-empty filename it performs exactly one call and stores the
returned id in the material it produces. -/
theorem makeShape_texture_registration (us : UrdfShape) (um : UrdfMaterial)
    (lif : BtTransform) (flags : Int) (graph : SceneGraph) :
    (um.m_textureFilename = "" →
      (makeShape us um lif flags graph).2 = []
      ∧ ∀ m : Material,
          (makeShape us um lif flags graph).1.material = some m →
          m.textureId = -1)
  ∧ (um.m_textureFilename ≠ "" →
      (makeShape us um lif flags graph).2 = [⟨um.m_textureFilename⟩]
      ∧ ∀ m : Material,
          (makeShape us um lif flags graph).1.material = some m →
          m.textureId = graph.register ⟨um.m_textureFilename⟩) := by
  constructor
  · intro he
    refine ⟨by rw [makeShape_calls_eq]; simp [he], ?_⟩
    intro m hm
    rcases makeShape_material_eq us um lif flags graph with h | h
    · rw [h] at hm
      exact Option.noConfusion hm
    · rw [h] at hm
      cases Option.some.inj hm
      simp [he]
  · intro hne
    refine ⟨by rw [makeShape_calls_eq]; simp [hne], ?_⟩
    intro m hm
    rcases makeShape_material_eq us um lif flags graph with h | h
    · rw [h] at hm
      exact Option.noConfusion hm
    · rw [h] at hm
      cases Option.some.inj hm
      simp [hne]

/-- Witness for C6: concrete evaluations with an empty and a non-empty
texture filename. -/
theorem makeShape_texture_registration_witness :
    (makeShape (sampleUrdfShape URDF_GEOM_BOX) sampleMatNoTex
        (BtTransform.atom 1) 0 sampleGraph).2 = []
  ∧ (makeShape (sampleUrdfShape URDF_GEOM_BOX) sampleMat
        (BtTransform.atom 1) 0 sampleGraph).2
      = [⟨sampleMat.m_textureFilename⟩]
  ∧ ∀ m : Material,
      (makeShape (sampleUrdfShape URDF_GEOM_BOX) sampleMat
          (BtTransform.atom 1) 0 sampleGraph).1.material = some m →
      m.textureId = sampleGraph.register ⟨sampleMat.m_textureFilename⟩ :=
  ⟨((makeShape_texture_registration (sampleUrdfShape URDF_GEOM_BOX)
      sampleMatNoTex (BtTransform.atom 1) 0 sampleGraph).1 (by decide)).1,
   ((makeShape_texture_registration (sampleUrdfShape URDF_GEOM_BOX)
      sampleMat (BtTransform.atom 1) 0 sampleGraph).2 (by decide)).1,
   ((makeShape_texture_registration (sampleUrdfShape URDF_GEOM_BOX)
      sampleMat (BtTransform.atom 1) 0 sampleGraph).2 (by decide)).2⟩

/-- C7: for Plane geometry, a normal whose dot product with (0,0,1) is at
least 0.99 — in particular (0,0,1) itself — composes no extra rotation
and the pose keeps the input frame; the normal (1,0,0) composes one extra
rotation whose axis is the cross product of the normal with (0,0,1) and
whose angle is the arcsine of that axis's length, an axis of unit
(squared) length, hence a 90-degree rotation. -/
theorem makeShape_plane_frame (us : UrdfShape) (um : UrdfMaterial)
    (lif : BtTransform) (flags : Int) (graph : SceneGraph)
    (hp : us.m_geometry.m_type = URDF_GEOM_PLANE) :
    ((0.99 : ℚ) ≤ us.m_geometry.m_planeNormal.dot ⟨0, 0, 1⟩ →
      (makeShape us um lif flags graph).1.pose
        = some ⟨BtTransform.mul (BtTransform.inv lif) us.m_linkLocalFrame,
                ⟨1, 1, 1⟩⟩)
  ∧ (us.m_geometry.m_planeNormal = ⟨1, 0, 0⟩ →
      (makeShape us um lif flags graph).1.pose
        = some ⟨BtTransform.mul
                  (BtTransform.mul (BtTransform.inv lif) us.m_linkLocalFrame)
                  (BtTransform.ofQuat
                    ⟨us.m_geometry.m_planeNormal.cross ⟨0, 0, 1⟩,
                     ⟨⟨us.m_geometry.m_planeNormal.cross ⟨0, 0, 1⟩⟩⟩⟩),
                ⟨1, 1, 1⟩⟩
      ∧ (us.m_geometry.m_planeNormal.cross ⟨0, 0, 1⟩).lengthSq = 1) := by
  obtain ⟨llf, ⟨t, bs, sr, cr, ch, pn, mft, mfn, ms, vs, uv, nr, idx⟩⟩ := us
  simp only at hp
  subst hp
  constructor
  · intro hd
    simp only at hd
    have hlt : ¬ (pn.dot ⟨0, 0, 1⟩ < (0.99 : ℚ)) := not_lt.mpr hd
    simp [makeShape, makePose, hlt]
  · intro hn
    simp only at hn
    subst hn
    have hd : (⟨1, 0, 0⟩ : V3).dot ⟨0, 0, 1⟩ < (0.99 : ℚ) := by
      norm_num [V3.dot]
    exact ⟨by simp [makeShape, makePose, hd],
           by norm_num [V3.cross, V3.lengthSq]⟩

/-- A plane-geometry URDF shape whose plane normal is (1,0,0). -/
def samplePlaneShapeX : UrdfShape :=
  ⟨BtTransform.atom 0,
   { sampleGeom URDF_GEOM_PLANE with m_planeNormal := ⟨1, 0, 0⟩ }⟩

/-- Witness for C7: the normal (0,0,1) keeps the frame, the normal
(1,0,0) composes the rotation about (0,-1,0) of unit squared axis
length. -/
theorem makeShape_plane_frame_witness :
    (makeShape (sampleUrdfShape URDF_GEOM_PLANE) sampleMat
        (BtTransform.atom 1) 0 sampleGraph).1.pose
      = some ⟨BtTransform.mul (BtTransform.inv (BtTransform.atom 1))
                (BtTransform.atom 0), ⟨1, 1, 1⟩⟩
  ∧ (makeShape samplePlaneShapeX sampleMat
        (BtTransform.atom 1) 0 sampleGraph).1.pose
      = some ⟨BtTransform.mul
                (BtTransform.mul (BtTransform.inv (BtTransform.atom 1))
                  (BtTransform.atom 0))
                (BtTransform.ofQuat ⟨⟨0, -1, 0⟩, ⟨⟨⟨0, -1, 0⟩⟩⟩⟩),
              ⟨1, 1, 1⟩⟩
  ∧ V3.lengthSq ⟨0, -1, 0⟩ = 1 := by
  refine ⟨?_, ?_, by norm_num [V3.lengthSq]⟩
  · exact (makeShape_plane_frame (sampleUrdfShape URDF_GEOM_PLANE) sampleMat
      (BtTransform.atom 1) 0 sampleGraph rfl).1
      (by norm_num [sampleUrdfShape, sampleGeom, V3.dot])
  · have h := ((makeShape_plane_frame samplePlaneShapeX sampleMat
      (BtTransform.atom 1) 0 sampleGraph rfl).2 rfl).1
    have hc : samplePlaneShapeX.m_geometry.m_planeNormal.cross ⟨0, 0, 1⟩
        = ⟨0, -1, 0⟩ := by
      norm_num [samplePlaneShapeX, sampleGeom, V3.cross]
    rw [hc] at h
    exact h

/-- C10: with a non-empty texture filename the registration call happens
regardless of the geometry dispatch: its trace is the same one-element
trace even for unsupported tags (where the empty default shape carries no
material) and even when the Mesh discard flag resets the material holding
the registered id. -/
theorem makeShape_registration_precedes_dispatch (us : UrdfShape)
    (um : UrdfMaterial) (lif : BtTransform) (flags : Int) (graph : SceneGraph)
    (h : um.m_textureFilename ≠ "") :
    (makeShape us um lif flags graph).2 = [⟨um.m_textureFilename⟩]
  ∧ ((us.m_geometry.m_type = URDF_GEOM_CDF
       ∨ us.m_geometry.m_type = URDF_GEOM_UNKNOWN) →
      (makeShape us um lif flags graph).1 = Shape.default)
  ∧ (us.m_geometry.m_type = URDF_GEOM_MESH →
      Int.land flags URDF_USE_MATERIAL_COLORS_FROM_MTL ≠ 0 →
      (makeShape us um lif flags graph).1.material = none) :=
  ⟨by rw [makeShape_calls_eq]; simp [h],
   fun hu => makeShape_unsupported_default us um lif flags graph hu,
   fun ht hf => makeShape_mesh_flag_material_none us um lif flags graph ht hf⟩

/-- Witness for C10: an unsupported (CDF) geometry with a non-empty
texture filename still registers the texture while returning the default
shape. -/
theorem makeShape_registration_precedes_dispatch_witness :
    (makeShape (sampleUrdfShape URDF_GEOM_CDF) sampleMat
        (BtTransform.atom 1) 0 sampleGraph).2
      = [⟨sampleMat.m_textureFilename⟩]
  ∧ (makeShape (sampleUrdfShape URDF_GEOM_CDF) sampleMat
        (BtTransform.atom 1) 0 sampleGraph).1 = Shape.default :=
  ⟨(makeShape_registration_precedes_dispatch (sampleUrdfShape URDF_GEOM_CDF)
      sampleMat (BtTransform.atom 1) 0 sampleGraph (by decide)).1,
   (makeShape_registration_precedes_dispatch (sampleUrdfShape URDF_GEOM_CDF)
      sampleMat (BtTransform.atom 1) 0 sampleGraph (by decide)).2.1
     (Or.inl (by decide))⟩

/-- A texture filename of 1025 bytes, strictly longer than the capacity
of the IPC struct's path field. -/
def longTexName : String := ⟨List.replicate 1025 'a'⟩

/-- A URDF material whose texture filename is `longTexName`. -/
def longMat : UrdfMaterial := ⟨⟨⟨1, 0, 0, 1⟩, ⟨0, 1, 0⟩⟩, longTexName⟩

/-- The asset-filename field of the filled struct is the `strncpy` copy
of the texture filename, bounded by the field capacity. -/
theorem makeVisualShapeData_assetName_eq (us : UrdfShape) (um : UrdfMaterial)
    (lifC : BtTransformC) (body link : Int) :
    (makeVisualShapeData us um lifC body link).m_meshAssetFileName
      = strncpy um.m_textureFilename.data VISUAL_SHAPE_MAX_PATH_LEN := rfl

/-- C2 counterexample: for a texture filename strictly longer than
`VISUAL_SHAPE_MAX_PATH_LEN`, the copied `m_meshAssetFileName` field
contains no NUL byte at all — `strncpy` truncates without
null-terminating, refuting the null-termination half of the claim. -/
theorem makeVisualShapeData_assetName_counterexample :
    VISUAL_SHAPE_MAX_PATH_LEN < longTexName.length
  ∧ nulChar ∉ (makeVisualShapeData (sampleUrdfShape URDF_GEOM_BOX) longMat
      sampleFrameC 0 0).m_meshAssetFileName := by
  have hdata : longTexName.data = List.replicate 1025 'a' := rfl
  constructor
  · show VISUAL_SHAPE_MAX_PATH_LEN < longTexName.data.length
    rw [hdata, List.length_replicate]
    decide
  · rw [makeVisualShapeData_assetName_eq]
    have hmat : longMat.m_textureFilename = longTexName := rfl
    rw [hmat]
    refine strncpy_nul_not_mem _ _ ?_
    rw [hdata, takeWhile_replicate_of_pos 1025 (by decide),
      List.length_replicate]
    decide

/-- C2 (amended): the copied field always holds exactly
`VISUAL_SHAPE_MAX_PATH_LEN` bytes (no write past the capacity); it is
null-terminated exactly when the C-string length of the texture filename
is below the capacity, and for longer filenames (the claim's case) it
holds no NUL byte. -/
theorem makeVisualShapeData_assetName_truncation (us : UrdfShape)
    (um : UrdfMaterial) (lifC : BtTransformC) (body link : Int) :
    (makeVisualShapeData us um lifC body link).m_meshAssetFileName.length
      = VISUAL_SHAPE_MAX_PATH_LEN
  ∧ ((um.m_textureFilename.data.takeWhile (fun c => c ≠ nulChar)).length
        < VISUAL_SHAPE_MAX_PATH_LEN →
      nulChar ∈
        (makeVisualShapeData us um lifC body link).m_meshAssetFileName)
  ∧ (VISUAL_SHAPE_MAX_PATH_LEN
        ≤ (um.m_textureFilename.data.takeWhile (fun c => c ≠ nulChar)).length →
      nulChar ∉
        (makeVisualShapeData us um lifC body link).m_meshAssetFileName) :=
  ⟨strncpy_length _ _,
   fun h => strncpy_nul_mem _ _ h,
   fun h => strncpy_nul_not_mem _ _ h⟩

/-- Witness for C2 (amended): a short filename fills the field to
capacity and the field is null-terminated. -/
theorem makeVisualShapeData_assetName_truncation_witness :
    (makeVisualShapeData (sampleUrdfShape URDF_GEOM_BOX) sampleMat
        sampleFrameC 0 0).m_meshAssetFileName.length
      = VISUAL_SHAPE_MAX_PATH_LEN
  ∧ nulChar ∈ (makeVisualShapeData (sampleUrdfShape URDF_GEOM_BOX) sampleMat
        sampleFrameC 0 0).m_meshAssetFileName :=
  ⟨(makeVisualShapeData_assetName_truncation (sampleUrdfShape URDF_GEOM_BOX)
      sampleMat sampleFrameC 0 0).1,
   (makeVisualShapeData_assetName_truncation (sampleUrdfShape URDF_GEOM_BOX)
      sampleMat sampleFrameC 0 0).2.1 (by decide)⟩

/-- C9: `makeVisualShapeData` hard-sets all three texture-related id
fields to `-1` for every input. -/
theorem makeVisualShapeData_texture_ids (us : UrdfShape) (um : UrdfMaterial)
    (lifC : BtTransformC) (body link : Int) :
    (makeVisualShapeData us um lifC body link).m_textureUniqueId = -1
  ∧ (makeVisualShapeData us um lifC body link).m_openglTextureId = -1
  ∧ (makeVisualShapeData us um lifC body link).m_tinyRendererTextureId = -1 :=
  ⟨rfl, rfl, rfl⟩

end PbRender
